import Mathlib

/-!
Verification of the request-intake pipeline of the portfolio chatbot backend
(`src/app.py`).  The Python source is shallowly embedded: the `/sendMessage`
handler (`send_message`, lines 305-449), the rate check
(`check_request_frequency`, lines 140-152) and the pattern detector
(`detect_suspicious_pattern`, lines 115-138) become pure Lean functions.
The external collaborators (OpenAI model call, MongoDB insert, Telegram
notification) are modelled by outcome parameters; Python exceptions that the
top-level handler catches are modelled by an explicit `CaughtExc` marker in
the result.  Machine state that the handler mutates (the per-IP request
counter) is passed and returned explicitly.
-/

set_option maxHeartbeats 1000000
set_option maxRecDepth 100000

namespace App

/-- JSON values as produced by Flask's `request.get_json`.  Numbers are kept
as integers, which suffices for the behaviours under study. -/
inductive JValue where
  | jnull : JValue
  | jbool : Bool → JValue
  | jnum : Int → JValue
  | jstr : String → JValue
  | jarr : List JValue → JValue
  | jobj : List (String × JValue) → JValue

/-- Python truthiness of a JSON value (`bool(x)` for the decoded object). -/
def JValue.truthy : JValue → Bool
  | .jnull => false
  | .jbool b => b
  | .jnum n => n != 0
  | .jstr s => s != ""
  | .jarr l => !l.isEmpty
  | .jobj l => !l.isEmpty

/-- Whether the decoded JSON value is a Python `str`. -/
def JValue.isStr : JValue → Bool
  | .jstr _ => true
  | _ => false

/-- `dict.get(k)` on a decoded JSON object: the value at the first binding of
the key, if any (parsed JSON objects have unique keys). -/
def dictGet (fields : List (String × JValue)) (k : String) : Option JValue :=
  match fields.find? (fun p => p.1 == k) with
  | some p => some p.2
  | none => none

/-- Characters stripped by Python `str.strip()` (the ASCII whitespace set,
which covers all inputs considered here). -/
def isPySpace (c : Char) : Bool :=
  c == ' ' || c == '\t' || c == '\n' || c == '\r' || c == '\x0b' || c == '\x0c'

/-- Python `s.strip()`: remove leading and trailing whitespace. -/
def pyStrip (s : String) : String :=
  ⟨((s.data.dropWhile isPySpace).reverse.dropWhile isPySpace).reverse⟩

/-- Does `needle` occur at the head of `hay`? -/
def startsWithList : List Char → List Char → Bool
  | [], _ => true
  | _ :: _, [] => false
  | c :: cs, d :: ds => c == d && startsWithList cs ds

/-- Does `needle` occur as a contiguous sublist of `hay`?  This is
`re.search` for a regex with no metacharacters. -/
def containsList (needle : List Char) : List Char → Bool
  | [] => startsWithList needle []
  | c :: t => startsWithList needle (c :: t) || containsList needle t

/-- `re.search("select", ...)` restricted to the region a `.*` can reach:
`select` must start before any newline is crossed (`.` does not match
newline).  The input is already lower-cased. -/
def selectSearch : List Char → Bool
  | [] => false
  | c :: t => startsWithList "select".data (c :: t) || (!(c == '\n') && selectSearch t)

/-- `re.search(r"union.*select", text, re.IGNORECASE)` on the lower-cased
character list: some suffix starts with `union` and is followed, without an
intervening newline, by `select`. -/
def unionSelectSearch : List Char → Bool
  | [] => false
  | c :: t =>
    (startsWithList "union".data (c :: t) && selectSearch (List.drop 5 (c :: t)))
      || unionSelectSearch t

/-- `detect_suspicious_pattern` (src/app.py lines 115-138): try the fixed
signature list in declared order and return the first matching description.
Only the `union.*select` pattern carries `re.IGNORECASE`; the others are
literal, case-sensitive substrings. -/
def detect_suspicious_pattern (text : String) : Option String :=
  if text == "" then none
  else
    let cs := text.data
    if containsList "<script".data cs then some "스크립트 태그 시도"
    else if unionSelectSearch (cs.map Char.toLower) then some "SQL 인젝션 시도"
    else if containsList "exec(".data cs || containsList "eval(".data cs then
      some "코드 실행 시도"
    else if containsList "../".data cs then some "경로 탐색 시도"
    else if containsList "/etc/passwd".data cs then some "시스템 파일 접근 시도"
    else none

/-- `check_request_frequency` (src/app.py lines 140-152).  The Python
function mutates the global `request_counter[client_ip]` list; here the list
for the requesting IP is passed in and the updated list is returned next to
the boolean.  Timestamps are seconds as integers; the prune keeps entries
with `(now - t).total_seconds() < window_seconds`. -/
def check_request_frequency (counter : List Int) (now : Int)
    (threshold : Nat) (windowSeconds : Int) : Bool × List Int :=
  let pruned := counter.filter (fun t => now - t < windowSeconds)
  let updated := pruned ++ [now]
  (decide (updated.length > threshold), updated)

/-- Security-log entries written by the handler (the `security_logger`
calls in src/app.py). -/
inductive SecEvent where
  | freqExceeded : SecEvent
  | badContentType : SecEvent
  | jsonParseFail : SecEvent
  | suspiciousPattern : String → SecEvent
  | oversizedMessage : SecEvent
  | emptyMessage : SecEvent
  | normalRequest : SecEvent
deriving DecidableEq

/-- Intake steps actually executed, in execution order, used to state the
ordering claims about the handler. -/
inductive Step where
  | freqCheck : Step
  | contentTypeCheck : Step
  | jsonParse : Step
  | fieldExtract : Step
  | patternCheck : Step
  | oversizedCheck : Step
  | emptyCheck : Step
  | downstreamCall : Step
deriving DecidableEq

/-- Position of each step in the handler's source order. -/
def stepIdx : Step → Nat
  | .freqCheck => 0
  | .contentTypeCheck => 1
  | .jsonParse => 2
  | .fieldExtract => 3
  | .patternCheck => 4
  | .oversizedCheck => 5
  | .emptyCheck => 6
  | .downstreamCall => 7

/-- A trace is ascending when successive steps occur in source order. -/
def ascendingTrace : List Step → Bool
  | [] => true
  | [_] => true
  | a :: b :: t => decide (stepIdx a < stepIdx b) && ascendingTrace (b :: t)

/-- Sites at which a Python exception escapes to the handler's top-level
`except Exception` (or, for `atMongoInsert`, escapes the narrower
`except PyMongoError`): `data.get` on a non-dict body (line 340),
`re.search` on a non-string message (line 135 via line 344), `.strip()` on a
non-string message (line 359), a non-OpenAIError from the model call
(line 388), a non-PyMongoError from the insert (line 421). -/
inductive CaughtExc where
  | atDictGet : CaughtExc
  | atPatternDetect : CaughtExc
  | atStrip : CaughtExc
  | atDownstream : CaughtExc
  | atMongoInsert : CaughtExc
deriving DecidableEq

/-- Outcome of `client.responses.create` (the downstream model call). -/
inductive DownstreamOutcome where
  | success : String → DownstreamOutcome
  | openaiError : DownstreamOutcome
  | otherError : DownstreamOutcome

/-- Outcome of `mongo_collection.insert_one`. -/
inductive SaveOutcome where
  | ok : SaveOutcome
  | pymongoError : SaveOutcome
  | otherError : SaveOutcome

/-- The HTTP response body: `{"ok": false, "error": e}` or
`{"ok": true, "response": r, "session_id": s, "conversation_id": c}`.
The conversation identifier is echoed as the JSON value taken from the
body, hence `JValue`. -/
inductive RespBody where
  | failure : String → RespBody
  | success : String → String → JValue → RespBody

/-- The document handed to `mongo_collection.insert_one` (lines 413-420). -/
structure MongoDoc where
  session_id : String
  conversation_id : JValue
  user : String
  message : String
  response : String

/-- The inbound request as the handler observes it: client IP, the optional
`x-session-id` header, whether `request.is_json` holds, and the result of
`request.get_json(silent=True)` (`none` both for a parse failure and for a
literal `null` body). -/
structure Request where
  clientIp : String
  xSessionId : Option String
  isJson : Bool
  parsedJson : Option JValue

/-- Process configuration relevant to the handler: whether the OpenAI
client was initialised, the configured vector-store ids, and whether the
Mongo collection is available. -/
structure Config where
  clientConfigured : Bool
  vectorStoreIds : List String
  mongoConfigured : Bool

/-- Everything observable about one handler invocation: HTTP status and
body, the security-log entries in order, the operational `logger.error`
entries in order, whether and with what input the model was called, the
persisted document if any, whether the Telegram notification was attempted,
the updated rate-counter list for the client IP, the site of a caught
exception if one was raised, and the ordered trace of intake steps that
ran. -/
structure HandlerResult where
  status : Nat
  body : RespBody
  securityEvents : List SecEvent
  opsErrors : List String
  downstreamCalled : Bool
  downstreamInput : Option String
  persistedDoc : Option MongoDoc
  notificationAttempted : Bool
  newCounter : List Int
  pyError : Option CaughtExc
  trace : List Step

/-- Line 310: `request.headers.get('x-session-id') or str(uuid.uuid4())`.
A missing or empty header falls back to a freshly minted identifier. -/
def resolveSessionId (header : Option String) (fresh : String) : String :=
  match header with
  | some s => if s == "" then fresh else s
  | none => fresh

/-- Line 340: `data.get('conversation_id') or str(uuid.uuid4())`.  A missing
or Python-falsy value falls back to a freshly minted identifier; any truthy
value is passed through verbatim. -/
def resolveConversationId (fields : List (String × JValue)) (fresh : String) : JValue :=
  match dictGet fields "conversation_id" with
  | some v => if v.truthy then v else .jstr fresh
  | none => .jstr fresh

/-- Everything `send_message` does after the frequency check (src/app.py
lines 310, 322-449); this part never reads the rate counter.  The
`newCounter` field is filled in by the wrapper. -/
def send_message_core (cfg : Config) (req : Request)
    (freshSession freshConv : String) (downstream : DownstreamOutcome)
    (save : SaveOutcome) (telegramFails : Bool) : HandlerResult :=
  let session_id := resolveSessionId req.xSessionId freshSession
  if !req.isJson then
    { status := 415, body := .failure "Content-Type must be application/json",
      securityEvents := [.badContentType], opsErrors := [],
      downstreamCalled := false, downstreamInput := none, persistedDoc := none,
      notificationAttempted := false, newCounter := [], pyError := none,
      trace := [.contentTypeCheck] }
  else
    match req.parsedJson with
    | none =>
      { status := 400, body := .failure "Invalid JSON data",
        securityEvents := [.jsonParseFail], opsErrors := [],
        downstreamCalled := false, downstreamInput := none, persistedDoc := none,
        notificationAttempted := false, newCounter := [], pyError := none,
        trace := [.contentTypeCheck, .jsonParse] }
    | some data =>
      match data with
      | .jobj fields =>
        let conversation_id : JValue := resolveConversationId fields freshConv
        let msgVal : JValue :=
          match dictGet fields "message" with
          | some v => if v.truthy then v else .jstr ""
          | none => .jstr ""
        match msgVal with
        | .jstr message =>
          let suspiciousEvents : List SecEvent :=
            match detect_suspicious_pattern message with
            | some desc => [.suspiciousPattern desc]
            | none => []
          let oversizedEvents : List SecEvent :=
            if message.length > 5000 then [.oversizedMessage] else []
          let preEvents := suspiciousEvents ++ oversizedEvents
          let fullTrace : List Step :=
            [.contentTypeCheck, .jsonParse, .fieldExtract, .patternCheck,
             .oversizedCheck, .emptyCheck]
          if message == "" || pyStrip message == "" then
            { status := 400, body := .failure "Message is required and cannot be empty",
              securityEvents := preEvents ++ [.emptyMessage], opsErrors := [],
              downstreamCalled := false, downstreamInput := none, persistedDoc := none,
              notificationAttempted := false, newCounter := [], pyError := none,
              trace := fullTrace }
          else
            let events := preEvents ++ [.normalRequest]
            if !cfg.clientConfigured then
              { status := 500, body := .failure "OpenAI API 키가 설정되지 않았습니다",
                securityEvents := events,
                opsErrors := ["OpenAI API 키가 설정되지 않았습니다."],
                downstreamCalled := false, downstreamInput := none, persistedDoc := none,
                notificationAttempted := false, newCounter := [], pyError := none,
                trace := fullTrace }
            else if cfg.vectorStoreIds.isEmpty then
              { status := 500,
                body := .failure "VECTOR_STORE_IDS가 설정되지 않아 파일 검색을 사용할 수 없습니다",
                securityEvents := events,
                opsErrors := ["VECTOR_STORE_IDS 환경변수가 설정되지 않았습니다."],
                downstreamCalled := false, downstreamInput := none, persistedDoc := none,
                notificationAttempted := false, newCounter := [], pyError := none,
                trace := fullTrace }
            else
              let modelInput := message.take 1000
              match downstream with
              | .openaiError =>
                { status := 500, body := .failure "AI 서비스에 문제가 발생했습니다",
                  securityEvents := events, opsErrors := ["OpenAI API 에러"],
                  downstreamCalled := true, downstreamInput := some modelInput,
                  persistedDoc := none, notificationAttempted := false,
                  newCounter := [], pyError := none,
                  trace := fullTrace ++ [.downstreamCall] }
              | .otherError =>
                { status := 500, body := .failure "Internal server error",
                  securityEvents := events, opsErrors := ["예상치 못한 에러 발생"],
                  downstreamCalled := true, downstreamInput := some modelInput,
                  persistedDoc := none, notificationAttempted := false,
                  newCounter := [], pyError := some .atDownstream,
                  trace := fullTrace ++ [.downstreamCall] }
              | .success ai =>
                let telegramOps : List String :=
                  if telegramFails then ["텔레그램 알림 발송 실패"] else []
                if cfg.mongoConfigured then
                  match save with
                  | .ok =>
                    { status := 200, body := .success ai session_id conversation_id,
                      securityEvents := events, opsErrors := telegramOps,
                      downstreamCalled := true, downstreamInput := some modelInput,
                      persistedDoc :=
                        some ⟨session_id, conversation_id, "guest", message, ai⟩,
                      notificationAttempted := true, newCounter := [], pyError := none,
                      trace := fullTrace ++ [.downstreamCall] }
                  | .pymongoError =>
                    { status := 200, body := .success ai session_id conversation_id,
                      securityEvents := events,
                      opsErrors := "MongoDB 저장 실패" :: telegramOps,
                      downstreamCalled := true, downstreamInput := some modelInput,
                      persistedDoc := none, notificationAttempted := true,
                      newCounter := [], pyError := none,
                      trace := fullTrace ++ [.downstreamCall] }
                  | .otherError =>
                    { status := 500, body := .failure "Internal server error",
                      securityEvents := events, opsErrors := ["예상치 못한 에러 발생"],
                      downstreamCalled := true, downstreamInput := some modelInput,
                      persistedDoc := none, notificationAttempted := false,
                      newCounter := [], pyError := some .atMongoInsert,
                      trace := fullTrace ++ [.downstreamCall] }
                else
                  { status := 200, body := .success ai session_id conversation_id,
                    securityEvents := events, opsErrors := telegramOps,
                    downstreamCalled := true, downstreamInput := some modelInput,
                    persistedDoc := none, notificationAttempted := true,
                    newCounter := [], pyError := none,
                    trace := fullTrace ++ [.downstreamCall] }
        | _ =>
          { status := 500, body := .failure "Internal server error",
            securityEvents := [], opsErrors := ["예상치 못한 에러 발생"],
            downstreamCalled := false, downstreamInput := none, persistedDoc := none,
            notificationAttempted := false, newCounter := [],
            pyError := some .atPatternDetect,
            trace := [.contentTypeCheck, .jsonParse, .fieldExtract, .patternCheck] }
      | _ =>
        { status := 500, body := .failure "Internal server error",
          securityEvents := [], opsErrors := ["예상치 못한 에러 발생"],
          downstreamCalled := false, downstreamInput := none, persistedDoc := none,
          notificationAttempted := false, newCounter := [],
          pyError := some .atDictGet,
          trace := [.contentTypeCheck, .jsonParse, .fieldExtract] }

/-- The `/sendMessage` handler (src/app.py lines 305-449).  The handler
first runs the frequency check against the caller's rate window (line 316),
logging a security event when it trips, and then proceeds with the rest of
the pipeline, which is independent of the rate state. -/
def send_message (cfg : Config) (counter : List Int) (now : Int) (req : Request)
    (freshSession freshConv : String) (downstream : DownstreamOutcome)
    (save : SaveOutcome) (telegramFails : Bool) : HandlerResult :=
  let fr := check_request_frequency counter now 10 60
  let freqEvents : List SecEvent := if fr.1 then [.freqExceeded] else []
  let core := send_message_core cfg req freshSession freshConv downstream save telegramFails
  { core with
      securityEvents := freqEvents ++ core.securityEvents,
      newCounter := fr.2,
      trace := Step.freqCheck :: core.trace }

/-- Helper: the part of the handler after the frequency check never logs a
frequency-exceeded security event. -/
theorem core_no_freq_event (cfg : Config) (req : Request) (fS fC : String)
    (ds : DownstreamOutcome) (sv : SaveOutcome) (tg : Bool) :
    SecEvent.freqExceeded ∉ (send_message_core cfg req fS fC ds sv tg).securityEvents := by
  simp only [send_message_core]
  repeat' split
  all_goals simp_all

/-- Helper: the step trace after the frequency check is in source order,
and the pattern check only runs once the request is JSON with an object
body. -/
theorem core_trace_props (cfg : Config) (req : Request) (fS fC : String)
    (ds : DownstreamOutcome) (sv : SaveOutcome) (tg : Bool) :
    ascendingTrace (Step.freqCheck :: (send_message_core cfg req fS fC ds sv tg).trace) = true ∧
    (Step.patternCheck ∈ (send_message_core cfg req fS fC ds sv tg).trace →
      req.isJson = true ∧ ∃ fs, req.parsedJson = some (.jobj fs)) := by
  simp only [send_message_core]
  repeat' split
  all_goals simp_all
  all_goals decide

/-- Helper: a 200 response always carries a success body. -/
theorem core_200_success (cfg : Config) (req : Request) (fS fC : String)
    (ds : DownstreamOutcome) (sv : SaveOutcome) (tg : Bool) :
    (send_message_core cfg req fS fC ds sv tg).status = 200 →
    ∃ r s c, (send_message_core cfg req fS fC ds sv tg).body = .success r s c := by
  simp only [send_message_core]
  repeat' split
  all_goals simp_all

/-- The condition under which the handler's empty-message validation
(line 359) rejects: the `message` field is absent, Python-falsy (so replaced
by `""` at line 341), or a string that is empty after trimming. -/
def messageFieldEmpty (fields : List (String × JValue)) : Bool :=
  match dictGet fields "message" with
  | none => true
  | some (.jstr m) => m == "" || pyStrip m == ""
  | some v => !v.truthy

/-- C1: every POST /sendMessage request that fails structural validation -
Content-Type not declaring JSON, body not parseable as JSON, or message
field absent/empty/whitespace-only after trimming - gets the corresponding
failure status (415, 400, 400) with an error body, a security-log entry is
written, and the downstream model is never invoked. -/
theorem validation_failures_reject (cfg : Config) (counter : List Int) (now : Int)
    (ip : String) (sid : Option String) (pj : Option JValue)
    (fields : List (String × JValue)) (fS fC : String)
    (ds : DownstreamOutcome) (sv : SaveOutcome) (tg : Bool) :
    (let r := send_message cfg counter now ⟨ip, sid, false, pj⟩ fS fC ds sv tg
     r.status = 415 ∧ r.body = .failure "Content-Type must be application/json" ∧
     SecEvent.badContentType ∈ r.securityEvents ∧ r.downstreamCalled = false) ∧
    (let r := send_message cfg counter now ⟨ip, sid, true, none⟩ fS fC ds sv tg
     r.status = 400 ∧ r.body = .failure "Invalid JSON data" ∧
     SecEvent.jsonParseFail ∈ r.securityEvents ∧ r.downstreamCalled = false) ∧
    (messageFieldEmpty fields = true →
     let r := send_message cfg counter now ⟨ip, sid, true, some (.jobj fields)⟩ fS fC ds sv tg
     r.status = 400 ∧ r.body = .failure "Message is required and cannot be empty" ∧
     SecEvent.emptyMessage ∈ r.securityEvents ∧ r.downstreamCalled = false) := by
  refine ⟨?_, ?_, ?_⟩
  · simp [send_message, send_message_core]
  · simp [send_message, send_message_core]
  · intro hemp
    unfold messageFieldEmpty at hemp
    simp only [send_message, send_message_core]
    cases hdg : dictGet fields "message" <;> rw [hdg] at hemp
    · simp [hdg, detect_suspicious_pattern]
    · rename_i v
      cases v with
      | jstr m =>
        by_cases hm : m = ""
        · subst hm; simp [hdg, JValue.truthy, detect_suspicious_pattern]
        · have hm' : (m == "") = false := by simpa using hm
          simp only [Bool.or_eq_true, beq_iff_eq] at hemp
          rcases hemp with hemp | hemp
          · exact absurd hemp hm
          · simp [hdg, JValue.truthy, hm, hemp]
      | jnull => simp [hdg, JValue.truthy, detect_suspicious_pattern]
      | jbool b => simp_all [hdg, JValue.truthy, detect_suspicious_pattern]
      | jnum n => simp_all [hdg, JValue.truthy, detect_suspicious_pattern]
      | jarr l => simp_all [hdg, JValue.truthy, detect_suspicious_pattern]
      | jobj l => simp_all [hdg, JValue.truthy, detect_suspicious_pattern]

/-- Witness for `validation_failures_reject`: a whitespace-only message is
rejected with 400, a security event and no downstream call. -/
theorem validation_failures_reject_witness :
    messageFieldEmpty [("message", JValue.jstr "   ")] = true ∧
    (let r := send_message ⟨true, ["vs"], true⟩ [] 0
        ⟨"1.2.3.4", none, true, some (.jobj [("message", JValue.jstr "   ")])⟩
        "fresh-s" "fresh-c" (.success "hello") .ok false
     r.status = 400 ∧ r.body = .failure "Message is required and cannot be empty" ∧
     SecEvent.emptyMessage ∈ r.securityEvents ∧ r.downstreamCalled = false) :=
  ⟨by decide,
   (validation_failures_reject ⟨true, ["vs"], true⟩ [] 0 "1.2.3.4" none none
      [("message", JValue.jstr "   ")] "fresh-s" "fresh-c" (.success "hello") .ok
      false).2.2 (by decide)⟩

/-- C2 counterexample: for a request whose Content-Type is not JSON, the
frequency check has already run (it is the first recorded step, before the
Content-Type check), so the claimed order - Content-Type, JSON parse, field
extraction, then frequency - is violated, and the frequency check is not
restricted to requests that passed validation. -/
theorem intake_order_counterexample :
    let r := send_message ⟨true, ["vs"], true⟩ [] 0 ⟨"1.2.3.4", none, false, none⟩
        "fresh-s" "fresh-c" (.success "hello") .ok false
    r.trace = [Step.freqCheck, Step.contentTypeCheck] ∧
    Step.freqCheck ∈ r.trace ∧ r.status = 415 :=
  ⟨rfl, by decide, rfl⟩

/-- C2 (amended): the intake steps of every request execute in the fixed
source order: frequency check first, then Content-Type check, JSON parsing,
field extraction, pattern check, oversized check, empty-message check and
finally the downstream call; the frequency check runs on every request
(even ones that fail validation), while the pattern check runs only on
requests that already passed the Content-Type and JSON-parse checks with an
object body. -/
theorem intake_step_order (cfg : Config) (counter : List Int) (now : Int)
    (req : Request) (fS fC : String) (ds : DownstreamOutcome) (sv : SaveOutcome)
    (tg : Bool) :
    let r := send_message cfg counter now req fS fC ds sv tg
    ascendingTrace r.trace = true ∧ r.trace.head? = some Step.freqCheck ∧
    (Step.patternCheck ∈ r.trace →
      req.isJson = true ∧ ∃ fs, req.parsedJson = some (.jobj fs)) := by
  intro r
  have h := core_trace_props cfg req fS fC ds sv tg
  refine ⟨h.1, rfl, ?_⟩
  intro hmem
  apply h.2
  rcases List.mem_cons.mp
      (show Step.patternCheck ∈
          Step.freqCheck :: (send_message_core cfg req fS fC ds sv tg).trace from hmem)
    with h1 | h1
  · exact absurd h1 (by decide)
  · exact h1

/-- Witness for `intake_step_order` on a fully successful request, where
the pattern check does run. -/
theorem intake_step_order_witness :
    (let r := send_message ⟨true, ["vs"], true⟩ [] 0
        ⟨"1.2.3.4", none, true, some (.jobj [("message", JValue.jstr "hi")])⟩
        "fresh-s" "fresh-c" (.success "hello") .ok false
     ascendingTrace r.trace = true ∧ r.trace.head? = some Step.freqCheck ∧
     (Step.patternCheck ∈ r.trace →
       (Request.mk "1.2.3.4" none true
          (some (.jobj [("message", JValue.jstr "hi")]))).isJson = true ∧
       ∃ fs, (Request.mk "1.2.3.4" none true
          (some (.jobj [("message", JValue.jstr "hi")]))).parsedJson =
            some (.jobj fs))) ∧
    Step.patternCheck ∈ (send_message ⟨true, ["vs"], true⟩ [] 0
        ⟨"1.2.3.4", none, true, some (.jobj [("message", JValue.jstr "hi")])⟩
        "fresh-s" "fresh-c" (.success "hello") .ok false).trace :=
  ⟨intake_step_order ⟨true, ["vs"], true⟩ [] 0
      ⟨"1.2.3.4", none, true, some (.jobj [("message", JValue.jstr "hi")])⟩
      "fresh-s" "fresh-c" (.success "hello") .ok false,
   by decide⟩

/-- C3: the rate check prunes every timestamp outside the trailing
60-second window, appends the current time and returns whether the
resulting count exceeds the threshold 10; when it trips, the handler logs
exactly one frequency-exceeded security event, and the rest of the
processing (status, body, downstream call, persistence, caught errors) is
independent of the rate state, so frequency alone never rejects a
request. -/
theorem rate_check_spec :
    (∀ (c : List Int) (now : Int),
      (check_request_frequency c now 10 60).2 = c.filter (fun t => now - t < 60) ++ [now] ∧
      (check_request_frequency c now 10 60).1 =
        decide ((c.filter (fun t => now - t < 60) ++ [now]).length > 10)) ∧
    (∀ (cfg : Config) (counter : List Int) (now : Int) (req : Request)
        (fS fC : String) (ds : DownstreamOutcome) (sv : SaveOutcome) (tg : Bool),
      (send_message cfg counter now req fS fC ds sv tg).securityEvents.count
          SecEvent.freqExceeded =
        if (check_request_frequency counter now 10 60).1 then 1 else 0) ∧
    (∀ (cfg : Config) (c1 c2 : List Int) (now : Int) (req : Request)
        (fS fC : String) (ds : DownstreamOutcome) (sv : SaveOutcome) (tg : Bool),
      (send_message cfg c1 now req fS fC ds sv tg).status =
        (send_message cfg c2 now req fS fC ds sv tg).status ∧
      (send_message cfg c1 now req fS fC ds sv tg).body =
        (send_message cfg c2 now req fS fC ds sv tg).body ∧
      (send_message cfg c1 now req fS fC ds sv tg).downstreamCalled =
        (send_message cfg c2 now req fS fC ds sv tg).downstreamCalled ∧
      (send_message cfg c1 now req fS fC ds sv tg).persistedDoc =
        (send_message cfg c2 now req fS fC ds sv tg).persistedDoc ∧
      (send_message cfg c1 now req fS fC ds sv tg).pyError =
        (send_message cfg c2 now req fS fC ds sv tg).pyError) := by
  refine ⟨fun c now => ⟨rfl, rfl⟩, ?_, fun _ _ _ _ _ _ _ _ _ _ => ⟨rfl, rfl, rfl, rfl, rfl⟩⟩
  intro cfg counter now req fS fC ds sv tg
  simp only [send_message]
  cases h : (check_request_frequency counter now 10 60).1 <;>
    simp [h, List.count_append,
      List.count_eq_zero.mpr (core_no_freq_event cfg req fS fC ds sv tg)]

/-- Helper: on a non-empty text the detector returns none exactly when no
signature matches. -/
theorem detect_eq_none_iff (s : String) (h : s ≠ "") :
    detect_suspicious_pattern s = none ↔
      (containsList "<script".data s.data = false ∧
       unionSelectSearch (s.data.map Char.toLower) = false ∧
       containsList "exec(".data s.data = false ∧
       containsList "eval(".data s.data = false ∧
       containsList "../".data s.data = false ∧
       containsList "/etc/passwd".data s.data = false) := by
  have hb : (s == "") = false := by simpa using h
  simp only [detect_suspicious_pattern, hb, Bool.false_eq_true, if_false]
  split_ifs with h1 h2 h3 h4 h5
  all_goals simp_all
  rcases h3 with h3 | h3 <;> simp [h3]

/-- C4: the detector evaluates the fixed signature list strictly in its
declared order and returns the description of the first matching pattern
only; it returns none on empty text and on text matching nothing; any text
containing the substring `<script` yields the markup-injection description
(it is the first signature), and "hello world" yields none. -/
theorem detect_pattern_spec :
    detect_suspicious_pattern "" = none ∧
    detect_suspicious_pattern "hello world" = none ∧
    (∀ s : String, containsList "<script".data s.data = true →
      detect_suspicious_pattern s = some "스크립트 태그 시도") ∧
    (∀ s : String, s ≠ "" → containsList "<script".data s.data = false →
      unionSelectSearch (s.data.map Char.toLower) = true →
      detect_suspicious_pattern s = some "SQL 인젝션 시도") ∧
    detect_suspicious_pattern "<script> union select ../etc/passwd" =
      some "스크립트 태그 시도" ∧
    (∀ s : String, detect_suspicious_pattern s = none →
      containsList "<script".data s.data = false ∧
      unionSelectSearch (s.data.map Char.toLower) = false ∧
      containsList "exec(".data s.data = false ∧
      containsList "eval(".data s.data = false ∧
      containsList "../".data s.data = false ∧
      containsList "/etc/passwd".data s.data = false) := by
  refine ⟨by decide, by decide, ?_, ?_, by decide, ?_⟩
  · intro s h
    have hs : s ≠ "" := by
      intro he; subst he; exact absurd h (by decide)
    have hb : (s == "") = false := by simpa using hs
    simp [detect_suspicious_pattern, hb, h]
  · intro s hs h1 h2
    have hb : (s == "") = false := by simpa using hs
    simp [detect_suspicious_pattern, hb, h1, h2]
  · intro s h
    by_cases hs : s = ""
    · subst hs
      exact ⟨by decide, by decide, by decide, by decide, by decide, by decide⟩
    · exact (detect_eq_none_iff s hs).mp h

/-- Witness for `detect_pattern_spec`: a text containing `<script` among
other signatures yields the markup-injection description; an upper-case SQL
signature yields the SQL description; "hi" matches nothing. -/
theorem detect_pattern_spec_witness :
    containsList "<script".data "abc<script>def".data = true ∧
    detect_suspicious_pattern "abc<script>def" = some "스크립트 태그 시도" ∧
    ("UNION all SELECT" ≠ "" ∧
     containsList "<script".data "UNION all SELECT".data = false ∧
     unionSelectSearch ("UNION all SELECT".data.map Char.toLower) = true ∧
     detect_suspicious_pattern "UNION all SELECT" = some "SQL 인젝션 시도") ∧
    (detect_suspicious_pattern "hi" = none ∧
     containsList "../".data "hi".data = false) :=
  ⟨by decide,
   detect_pattern_spec.2.2.1 "abc<script>def" (by decide),
   ⟨by decide, by decide, by decide,
    detect_pattern_spec.2.2.2.1 "UNION all SELECT" (by decide) (by decide) (by decide)⟩,
   by decide,
   ((detect_pattern_spec.2.2.2.2.2 "hi" (by decide)).2.2.2.2.1)⟩

/-- C5: a present non-empty x-session-id header is reused verbatim as the
response session_id, otherwise a fresh identifier is used; independently, a
present non-empty conversation_id in the body is reused verbatim, otherwise
a fresh one is minted; the successful response carries exactly these two
resolved identifiers, and every 200 response carries both. -/
theorem correlation_id_spec (cfg : Config) (counter : List Int) (now : Int)
    (ip : String) (sid : Option String) (fields : List (String × JValue))
    (fS fC m a : String) (tg : Bool)
    (hm : dictGet fields "message" = some (.jstr m))
    (hm1 : m ≠ "") (hm2 : pyStrip m ≠ "")
    (hcl : cfg.clientConfigured = true) (hvs : cfg.vectorStoreIds.isEmpty = false) :
    (∀ s : String, s ≠ "" → resolveSessionId (some s) fS = s) ∧
    resolveSessionId none fS = fS ∧ resolveSessionId (some "") fS = fS ∧
    (∀ cv : String, dictGet fields "conversation_id" = some (.jstr cv) → cv ≠ "" →
      resolveConversationId fields fC = .jstr cv) ∧
    (dictGet fields "conversation_id" = none →
      resolveConversationId fields fC = .jstr fC) ∧
    (let r := send_message cfg counter now ⟨ip, sid, true, some (.jobj fields)⟩ fS fC
        (.success a) .ok tg
     r.status = 200 ∧
     r.body = .success a (resolveSessionId sid fS) (resolveConversationId fields fC)) ∧
    (∀ (req : Request) (ds : DownstreamOutcome) (sv : SaveOutcome),
      (send_message cfg counter now req fS fC ds sv tg).status = 200 →
      ∃ r s c, (send_message cfg counter now req fS fC ds sv tg).body = .success r s c) := by
  refine ⟨?_, rfl, rfl, ?_, ?_, ?_, ?_⟩
  · intro s hs
    simp [resolveSessionId, hs]
  · intro cv hcv hne
    simp [resolveConversationId, hcv, JValue.truthy, hne]
  · intro hnone
    simp [resolveConversationId, hnone]
  · cases hmc : cfg.mongoConfigured <;>
      simp [send_message, send_message_core, hm, JValue.truthy, hm1, hm2, hcl, hvs, hmc]
  · intro req ds sv h
    exact core_200_success cfg req fS fC ds sv tg h

/-- Witness for `correlation_id_spec`: given session header "sess1" and
body conversation_id "abc", both are passed through verbatim into the 200
response. -/
theorem correlation_id_spec_witness :
    resolveSessionId (some "sess1") "fresh-s" = "sess1" ∧
    resolveConversationId
      [("conversation_id", JValue.jstr "abc"), ("message", JValue.jstr "hi")]
      "fresh-c" = .jstr "abc" ∧
    (let r := send_message ⟨true, ["vs"], true⟩ [] 0
        ⟨"1.2.3.4", some "sess1", true,
         some (.jobj [("conversation_id", JValue.jstr "abc"),
                      ("message", JValue.jstr "hi")])⟩
        "fresh-s" "fresh-c" (.success "answer") .ok false
     r.status = 200 ∧
     r.body = .success "answer" (resolveSessionId (some "sess1") "fresh-s")
       (resolveConversationId
         [("conversation_id", JValue.jstr "abc"), ("message", JValue.jstr "hi")]
         "fresh-c")) :=
  have h := correlation_id_spec ⟨true, ["vs"], true⟩ [] 0 "1.2.3.4" (some "sess1")
    [("conversation_id", JValue.jstr "abc"), ("message", JValue.jstr "hi")]
    "fresh-s" "fresh-c" "hi" "answer" false rfl (by decide) (by decide) rfl rfl
  ⟨h.1 "sess1" (by decide), h.2.2.2.1 "abc" rfl (by decide), h.2.2.2.2.2.1⟩

/-- C6: a message longer than 5000 characters is accepted, not rejected:
an oversized-message security event is logged, the model call receives only
the first 1000 characters, and the persisted record retains the full
original message. -/
theorem oversized_message_spec (cfg : Config) (counter : List Int) (now : Int)
    (ip : String) (sid : Option String) (fields : List (String × JValue))
    (fS fC m a : String) (tg : Bool)
    (hm : dictGet fields "message" = some (.jstr m))
    (hlen : m.length > 5000) (hm2 : pyStrip m ≠ "")
    (hcl : cfg.clientConfigured = true) (hvs : cfg.vectorStoreIds.isEmpty = false)
    (hmg : cfg.mongoConfigured = true) :
    let r := send_message cfg counter now ⟨ip, sid, true, some (.jobj fields)⟩ fS fC
        (.success a) .ok tg
    r.status = 200 ∧ SecEvent.oversizedMessage ∈ r.securityEvents ∧
    r.downstreamInput = some (m.take 1000) ∧
    r.persistedDoc = some ⟨resolveSessionId sid fS, resolveConversationId fields fC,
      "guest", m, a⟩ := by
  have hm1 : m ≠ "" := by
    intro he; subst he; exact absurd hlen (by decide)
  simp [send_message, send_message_core, hm, JValue.truthy, hm1, hm2, hcl, hvs, hmg, hlen]

/-- Helper: dropWhile is the identity when no element satisfies the
predicate. -/
theorem dropWhile_false_of_all (p : Char → Bool) (l : List Char)
    (h : ∀ c ∈ l, p c = false) : l.dropWhile p = l := by
  cases l with
  | nil => rfl
  | cons a t => simp [List.dropWhile_cons, h a (by simp)]

/-- Helper: stripping a string without whitespace is the identity. -/
theorem pyStrip_of_no_space (s : String) (h : ∀ c ∈ s.data, isPySpace c = false) :
    pyStrip s = s := by
  unfold pyStrip
  rw [dropWhile_false_of_all _ _ h,
      dropWhile_false_of_all _ _ (by intro c hc; exact h c (List.mem_reverse.mp hc)),
      List.reverse_reverse]

/-- Helper: the 6000-character witness message has length 6000. -/
theorem replicate6000_len : (String.mk (List.replicate 6000 'a')).length = 6000 := by
  show (List.replicate 6000 'a').length = 6000
  exact List.length_replicate 6000 'a'

/-- Helper: the 6000-character witness message contains no whitespace. -/
theorem replicate6000_no_space :
    ∀ c ∈ (String.mk (List.replicate 6000 'a')).data, isPySpace c = false := by
  intro c hc
  have h1 : c = 'a' := List.eq_of_mem_replicate hc
  subst h1
  decide

/-- Helper: the 6000-character witness message is not whitespace-only. -/
theorem replicate6000_strip_ne :
    pyStrip (String.mk (List.replicate 6000 'a')) ≠ "" := by
  rw [pyStrip_of_no_space _ replicate6000_no_space]
  intro he
  have h2 : List.replicate 6000 'a' = ([] : List Char) := congrArg String.data he
  have h3 := congrArg List.length h2
  rw [List.length_replicate] at h3
  simp at h3

/-- Witness for `oversized_message_spec`: a 6000-character message is
accepted with an oversized-message event, a truncated model input and a
full persisted copy. -/
theorem oversized_message_spec_witness :
    dictGet [("message", JValue.jstr (String.mk (List.replicate 6000 'a')))] "message" =
      some (.jstr (String.mk (List.replicate 6000 'a'))) ∧
    (String.mk (List.replicate 6000 'a')).length > 5000 ∧
    pyStrip (String.mk (List.replicate 6000 'a')) ≠ "" ∧
    (let r := send_message ⟨true, ["vs"], true⟩ [] 0
        ⟨"1.2.3.4", none, true,
         some (.jobj [("message", JValue.jstr (String.mk (List.replicate 6000 'a')))])⟩
        "fresh-s" "fresh-c" (.success "answer") .ok false
     r.status = 200 ∧ SecEvent.oversizedMessage ∈ r.securityEvents ∧
     r.downstreamInput = some ((String.mk (List.replicate 6000 'a')).take 1000) ∧
     r.persistedDoc = some ⟨resolveSessionId none "fresh-s",
       resolveConversationId
         [("message", JValue.jstr (String.mk (List.replicate 6000 'a')))] "fresh-c",
       "guest", String.mk (List.replicate 6000 'a'), "answer"⟩) :=
  have hlen : (String.mk (List.replicate 6000 'a')).length > 5000 := by
    rw [replicate6000_len]; norm_num
  ⟨rfl, hlen, replicate6000_strip_ne,
   oversized_message_spec ⟨true, ["vs"], true⟩ [] 0 "1.2.3.4" none
     [("message", JValue.jstr (String.mk (List.replicate 6000 'a')))]
     "fresh-s" "fresh-c" (String.mk (List.replicate 6000 'a')) "answer" false
     rfl hlen replicate6000_strip_ne rfl rfl rfl⟩

/-- C7 counterexample: with no vector stores configured the handler returns
500 as claimed, but the response body itself names the missing internal
configuration (the VECTOR_STORE_IDS environment variable), so internal
configuration detail is exposed to the caller, contrary to the claim. -/
theorem config_error_leak_counterexample :
    let r := send_message ⟨true, [], true⟩ [] 0
        ⟨"1.2.3.4", none, true, some (.jobj [("message", JValue.jstr "hi")])⟩
        "fresh-s" "fresh-c" (.success "answer") .ok false
    r.status = 500 ∧
    r.body = .failure "VECTOR_STORE_IDS가 설정되지 않아 파일 검색을 사용할 수 없습니다" ∧
    containsList "VECTOR_STORE_IDS".data
      "VECTOR_STORE_IDS가 설정되지 않아 파일 검색을 사용할 수 없습니다".data = true :=
  ⟨rfl, rfl, by decide⟩

/-- C7 (amended): when the model client is absent or no retrieval sources
are configured, POST /sendMessage returns 500 without invoking the model
and the condition is operationally logged; the response body however names
the missing configuration item (the OpenAI API key, resp. the
VECTOR_STORE_IDS environment variable) instead of being generic. -/
theorem config_error_spec (cfg : Config) (counter : List Int) (now : Int)
    (ip : String) (sid : Option String) (fields : List (String × JValue))
    (fS fC m : String) (ds : DownstreamOutcome) (sv : SaveOutcome) (tg : Bool)
    (hm : dictGet fields "message" = some (.jstr m))
    (hm1 : m ≠ "") (hm2 : pyStrip m ≠ "") :
    (cfg.clientConfigured = false →
      let r := send_message cfg counter now ⟨ip, sid, true, some (.jobj fields)⟩
          fS fC ds sv tg
      r.status = 500 ∧ r.body = .failure "OpenAI API 키가 설정되지 않았습니다" ∧
      r.opsErrors = ["OpenAI API 키가 설정되지 않았습니다."] ∧
      r.downstreamCalled = false) ∧
    (cfg.clientConfigured = true → cfg.vectorStoreIds = [] →
      let r := send_message cfg counter now ⟨ip, sid, true, some (.jobj fields)⟩
          fS fC ds sv tg
      r.status = 500 ∧
      r.body = .failure "VECTOR_STORE_IDS가 설정되지 않아 파일 검색을 사용할 수 없습니다" ∧
      r.opsErrors = ["VECTOR_STORE_IDS 환경변수가 설정되지 않았습니다."] ∧
      r.downstreamCalled = false) := by
  constructor
  · intro hcl
    simp [send_message, send_message_core, hm, JValue.truthy, hm1, hm2, hcl]
  · intro hcl hvs
    simp [send_message, send_message_core, hm, JValue.truthy, hm1, hm2, hcl, hvs]

/-- Witness for `config_error_spec` at both configuration failures. -/
theorem config_error_spec_witness :
    (let r := send_message ⟨false, [], false⟩ [] 0
        ⟨"1.2.3.4", none, true, some (.jobj [("message", JValue.jstr "hi")])⟩
        "fresh-s" "fresh-c" (.success "answer") .ok false
     r.status = 500 ∧ r.body = .failure "OpenAI API 키가 설정되지 않았습니다" ∧
     r.opsErrors = ["OpenAI API 키가 설정되지 않았습니다."] ∧
     r.downstreamCalled = false) ∧
    (let r := send_message ⟨true, [], false⟩ [] 0
        ⟨"1.2.3.4", none, true, some (.jobj [("message", JValue.jstr "hi")])⟩
        "fresh-s" "fresh-c" (.success "answer") .ok false
     r.status = 500 ∧
     r.body = .failure "VECTOR_STORE_IDS가 설정되지 않아 파일 검색을 사용할 수 없습니다" ∧
     r.opsErrors = ["VECTOR_STORE_IDS 환경변수가 설정되지 않았습니다."] ∧
     r.downstreamCalled = false) :=
  have h1 := config_error_spec ⟨false, [], false⟩ [] 0 "1.2.3.4" none
    [("message", JValue.jstr "hi")] "fresh-s" "fresh-c" "hi" (.success "answer")
    .ok false rfl (by decide) (by decide)
  have h2 := config_error_spec ⟨true, [], false⟩ [] 0 "1.2.3.4" none
    [("message", JValue.jstr "hi")] "fresh-s" "fresh-c" "hi" (.success "answer")
    .ok false rfl (by decide) (by decide)
  ⟨h1.1 rfl, h2.2 rfl rfl⟩

/-- C8: if the Mongo save fails (its PyMongoError failure mode) after a
successful model call, the handler still returns 200 carrying the model's
response and the resolved session/conversation identifiers and logs exactly
one side-effect error; the same isolation holds for a notification failure,
and neither failure alters the HTTP status or body. -/
theorem side_effect_isolation_spec (cfg : Config) (counter : List Int) (now : Int)
    (ip : String) (sid : Option String) (fields : List (String × JValue))
    (fS fC m a : String)
    (hm : dictGet fields "message" = some (.jstr m))
    (hm1 : m ≠ "") (hm2 : pyStrip m ≠ "")
    (hcl : cfg.clientConfigured = true) (hvs : cfg.vectorStoreIds.isEmpty = false)
    (hmg : cfg.mongoConfigured = true) :
    (let r := send_message cfg counter now ⟨ip, sid, true, some (.jobj fields)⟩ fS fC
        (.success a) .pymongoError false
     r.status = 200 ∧
     r.body = .success a (resolveSessionId sid fS) (resolveConversationId fields fC) ∧
     r.opsErrors = ["MongoDB 저장 실패"]) ∧
    (let r := send_message cfg counter now ⟨ip, sid, true, some (.jobj fields)⟩ fS fC
        (.success a) .ok true
     r.status = 200 ∧
     r.body = .success a (resolveSessionId sid fS) (resolveConversationId fields fC) ∧
     r.opsErrors = ["텔레그램 알림 발송 실패"]) ∧
    (∀ sv1 sv2 : SaveOutcome, sv1 ≠ .otherError → sv2 ≠ .otherError →
      ∀ tg1 tg2 : Bool,
      (send_message cfg counter now ⟨ip, sid, true, some (.jobj fields)⟩ fS fC
        (.success a) sv1 tg1).status =
        (send_message cfg counter now ⟨ip, sid, true, some (.jobj fields)⟩ fS fC
          (.success a) sv2 tg2).status ∧
      (send_message cfg counter now ⟨ip, sid, true, some (.jobj fields)⟩ fS fC
        (.success a) sv1 tg1).body =
        (send_message cfg counter now ⟨ip, sid, true, some (.jobj fields)⟩ fS fC
          (.success a) sv2 tg2).body) := by
  refine ⟨?_, ?_, ?_⟩
  · simp [send_message, send_message_core, hm, JValue.truthy, hm1, hm2, hcl, hvs, hmg]
  · simp [send_message, send_message_core, hm, JValue.truthy, hm1, hm2, hcl, hvs, hmg]
  · intro sv1 sv2 h1 h2 tg1 tg2
    cases sv1 <;> cases sv2 <;>
      simp_all [send_message, send_message_core, hm, JValue.truthy, hm1, hm2, hcl,
        hvs, hmg]

/-- Witness for `side_effect_isolation_spec` at a concrete request. -/
theorem side_effect_isolation_spec_witness :
    (let r := send_message ⟨true, ["vs"], true⟩ [] 0
        ⟨"1.2.3.4", none, true, some (.jobj [("message", JValue.jstr "hi")])⟩
        "fresh-s" "fresh-c" (.success "answer") .pymongoError false
     r.status = 200 ∧
     r.body = .success "answer" (resolveSessionId none "fresh-s")
       (resolveConversationId [("message", JValue.jstr "hi")] "fresh-c") ∧
     r.opsErrors = ["MongoDB 저장 실패"]) ∧
    (let r := send_message ⟨true, ["vs"], true⟩ [] 0
        ⟨"1.2.3.4", none, true, some (.jobj [("message", JValue.jstr "hi")])⟩
        "fresh-s" "fresh-c" (.success "answer") .ok true
     r.status = 200 ∧
     r.body = .success "answer" (resolveSessionId none "fresh-s")
       (resolveConversationId [("message", JValue.jstr "hi")] "fresh-c") ∧
     r.opsErrors = ["텔레그램 알림 발송 실패"]) :=
  have h := side_effect_isolation_spec ⟨true, ["vs"], true⟩ [] 0 "1.2.3.4" none
    [("message", JValue.jstr "hi")] "fresh-s" "fresh-c" "hi" "answer"
    rfl (by decide) (by decide) rfl rfl rfl
  ⟨h.1, h.2.1⟩

/-- C9: when the model call raises its (OpenAI) error, the handler returns
500 with the generic service-error message, and neither the persistence
save nor the notification side effect is performed. -/
theorem downstream_failure_spec (cfg : Config) (counter : List Int) (now : Int)
    (ip : String) (sid : Option String) (fields : List (String × JValue))
    (fS fC m : String) (sv : SaveOutcome) (tg : Bool)
    (hm : dictGet fields "message" = some (.jstr m))
    (hm1 : m ≠ "") (hm2 : pyStrip m ≠ "")
    (hcl : cfg.clientConfigured = true) (hvs : cfg.vectorStoreIds.isEmpty = false) :
    let r := send_message cfg counter now ⟨ip, sid, true, some (.jobj fields)⟩ fS fC
        .openaiError sv tg
    r.status = 500 ∧ r.body = .failure "AI 서비스에 문제가 발생했습니다" ∧
    r.downstreamCalled = true ∧ r.persistedDoc = none ∧
    r.notificationAttempted = false := by
  simp [send_message, send_message_core, hm, JValue.truthy, hm1, hm2, hcl, hvs]

/-- Witness for `downstream_failure_spec` at a concrete request. -/
theorem downstream_failure_spec_witness :
    let r := send_message ⟨true, ["vs"], true⟩ [] 0
        ⟨"1.2.3.4", none, true, some (.jobj [("message", JValue.jstr "hi")])⟩
        "fresh-s" "fresh-c" .openaiError .ok false
    r.status = 500 ∧ r.body = .failure "AI 서비스에 문제가 발생했습니다" ∧
    r.downstreamCalled = true ∧ r.persistedDoc = none ∧
    r.notificationAttempted = false :=
  downstream_failure_spec ⟨true, ["vs"], true⟩ [] 0 "1.2.3.4" none
    [("message", JValue.jstr "hi")] "fresh-s" "fresh-c" "hi" .ok false
    rfl (by decide) (by decide) rfl rfl

/-- C10 counterexample: with body {"message": 5} the caught exception
arises at the suspicious-pattern check (the `re.search` call on a
non-string), not at the trim (`.strip()`) step the claim names, while the
observable 500 outcome matches. -/
theorem nonstring_message_counterexample :
    let r := send_message ⟨true, ["vs"], true⟩ [] 0
        ⟨"1.2.3.4", none, true, some (.jobj [("message", JValue.jnum 5)])⟩
        "fresh-s" "fresh-c" (.success "answer") .ok false
    r.status = 500 ∧ r.body = .failure "Internal server error" ∧
    r.downstreamCalled = false ∧ r.pyError = some .atPatternDetect ∧
    (r.pyError == some CaughtExc.atStrip) = false :=
  ⟨rfl, rfl, rfl, rfl, by decide⟩

/-- C10 (amended): for a parsed body whose message field is a truthy
non-string value, the handler does not return the 400 empty-message
rejection: the regex search inside the suspicious-pattern check raises, the
top-level handler catches it, the response is 500 with body
ok=false / error="Internal server error", and the model is never
invoked. -/
theorem nonstring_message_spec (cfg : Config) (counter : List Int) (now : Int)
    (ip : String) (sid : Option String) (fields : List (String × JValue))
    (fS fC : String) (ds : DownstreamOutcome) (sv : SaveOutcome) (tg : Bool)
    (v : JValue) (hv : dictGet fields "message" = some v)
    (ht : v.truthy = true) (hns : v.isStr = false) :
    let r := send_message cfg counter now ⟨ip, sid, true, some (.jobj fields)⟩
        fS fC ds sv tg
    r.status = 500 ∧ r.body = .failure "Internal server error" ∧
    r.downstreamCalled = false ∧ r.pyError = some .atPatternDetect := by
  cases v <;>
    simp_all [send_message, send_message_core, JValue.truthy, JValue.isStr, hv]

/-- Witness for `nonstring_message_spec` with message = 5. -/
theorem nonstring_message_spec_witness :
    dictGet [("message", JValue.jnum 5)] "message" = some (JValue.jnum 5) ∧
    (JValue.jnum 5).truthy = true ∧ (JValue.jnum 5).isStr = false ∧
    (let r := send_message ⟨true, ["vs"], true⟩ [] 0
        ⟨"1.2.3.4", none, true, some (.jobj [("message", JValue.jnum 5)])⟩
        "fresh-s" "fresh-c" (.success "answer") .ok false
     r.status = 500 ∧ r.body = .failure "Internal server error" ∧
     r.downstreamCalled = false ∧ r.pyError = some .atPatternDetect) :=
  ⟨rfl, by decide, rfl,
   nonstring_message_spec ⟨true, ["vs"], true⟩ [] 0 "1.2.3.4" none
     [("message", JValue.jnum 5)] "fresh-s" "fresh-c" (.success "answer") .ok false
     (JValue.jnum 5) rfl (by decide) rfl⟩

end App
